import Mathlib

/-!
# Shallow embedding of `SceneManager.cpp` (CS330_FinalProject)

This file embeds the texture-registry / material-registry / transform-and-
shader-binding core of `src/SceneManager.cpp` and proves the frozen claims
about it.

Modelling conventions:
* `GLfloat` values are modelled as `ℚ` (no floating-point arithmetic is
  performed by the embedded code paths: colors and material fields are only
  copied, matrix entries are combined by ring operations).
* GPU side effects are modelled explicitly: `glGenTextures` draws a fresh
  name from a counter and adds it to the set of live GPU texture objects;
  `glDeleteTextures` removes names.  The CPU pixel buffer returned by
  `stbi_load` is modelled as a count of live CPU buffers, incremented on a
  successful decode and decremented by `stbi_image_free`.
* The image decoder (`stbi_load`) is an external collaborator: a call site
  receives its result as an `Option Image` argument.
* The shader bridge (`ShaderManager`) is an external collaborator exposing
  named-uniform setters; it is modelled as an append-only log of uniform
  writes, the current value of a uniform being its last write.
-/

/-- Result of a successful `stbi_load` decode: width, height and inferred
channel count (the pixel bytes themselves play no role in the embedded
control flow). -/
structure Image where
  width : Nat
  height : Nat
  channels : Nat
deriving DecidableEq, Repr

/-- A 3-component vector (`glm::vec3`), components modelled as `ℚ`. -/
structure Vec3 where
  x : ℚ
  y : ℚ
  z : ℚ
deriving DecidableEq, Repr

/-- Modelled from the spec: `SceneManager.h` (not in `src/`) declares the
texture entry type — "Texture Entry: { handle: opaque GPU texture id,
tag: string }".  `ID` is the `GLuint` handle, `tag` the lookup key. -/
structure TEXTURE_ENTRY where
  ID : Nat
  tag : String
deriving DecidableEq, Repr

/-- Modelled from the spec: `SceneManager.h` (not in `src/`) declares
`OBJECT_MATERIAL` — "Material Entry: { tag: string, diffuseColor: rgb,
specularColor: rgb, shininess: scalar }". -/
structure OBJECT_MATERIAL where
  diffuseColor : Vec3
  specularColor : Vec3
  shininess : ℚ
  tag : String
deriving DecidableEq, Repr

/-- Modelled from the spec: `MAX_TEXTURES` is the compile-time capacity of
the texture registry, defined in `SceneManager.h` (not in `src/`); the
`BindGLTextures` comment says "There can be up to 16 slots".  No claim
depends on the particular value. -/
def MAX_TEXTURES : Nat := 16

/-- 4×4 matrix over `ℚ` (`glm::mat4`). -/
abbrev Mat4 := Matrix (Fin 4) (Fin 4) ℚ

/-- A value written to a named shader uniform by the `ShaderManager`
collaborator. -/
inductive UniformVal where
  | intVal : Int → UniformVal
  | floatVal : ℚ → UniformVal
  | vec2Val : ℚ → ℚ → UniformVal
  | vec3Val : Vec3 → UniformVal
  | vec4Val : ℚ → ℚ → ℚ → ℚ → UniformVal
  | mat4Val : Mat4 → UniformVal
  | boolVal : Bool → UniformVal
  | sampler2DVal : Int → UniformVal

/-- Modelled from the spec: the shader bridge is an external collaborator
accepting fire-and-forget named-uniform writes that "persist until
overwritten".  Modelled as the log of writes issued so far; the current
value of a uniform is its most recent write. -/
structure ShaderManager where
  writes : List (String × UniformVal)

/-- Append one uniform write to the shader log (shared shape of
`setIntValue`, `setMat4Value`, …). -/
def ShaderManager.push (name : String) (v : UniformVal) (sh : ShaderManager) :
    ShaderManager :=
  ⟨sh.writes ++ [(name, v)]⟩

/-- `ShaderManager::setIntValue`. -/
def setIntValue (name : String) (v : Int) (sh : ShaderManager) : ShaderManager :=
  sh.push name (.intVal v)

/-- `ShaderManager::setSampler2DValue`. -/
def setSampler2DValue (name : String) (v : Int) (sh : ShaderManager) : ShaderManager :=
  sh.push name (.sampler2DVal v)

/-- `ShaderManager::setVec2Value`. -/
def setVec2Value (name : String) (u v : ℚ) (sh : ShaderManager) : ShaderManager :=
  sh.push name (.vec2Val u v)

/-- `ShaderManager::setVec4Value`. -/
def setVec4Value (name : String) (r g b a : ℚ) (sh : ShaderManager) : ShaderManager :=
  sh.push name (.vec4Val r g b a)

/-- `ShaderManager::setMat4Value`. -/
def setMat4Value (name : String) (m : Mat4) (sh : ShaderManager) : ShaderManager :=
  sh.push name (.mat4Val m)

/-- Current value of a named uniform: the last write with that name in the
log, if any. -/
def getUniform (name : String) (sh : ShaderManager) : Option UniformVal :=
  (sh.writes.reverse.find? (fun w => w.1 == name)).map (·.2)

/-- Live GPU texture-object state: `live` is the list of allocated texture
names, `next` the fresh name `glGenTextures` hands out next. -/
structure GPUState where
  live : List Nat
  next : Nat
deriving DecidableEq, Repr

/-- The `SceneManager` instance state: the shader-manager pointer
(`none` = `NULL`), the registered prefix of the fixed `m_textureIDs` array
(`m_loadedTextures` = its length), the material list, the GPU texture
objects, and the count of live CPU pixel buffers from `stbi_load`. -/
structure SceneManager where
  shader : Option ShaderManager
  textureIDs : List TEXTURE_ENTRY
  objectMaterials : List OBJECT_MATERIAL
  gpu : GPUState
  cpuBuffers : Nat

-- string constants from the anonymous namespace of SceneManager.cpp
def g_ModelName : String := "model"
def g_ColorValueName : String := "objectColor"
def g_TextureValueName : String := "objectTexture"
def g_UseTextureName : String := "bUseTexture"

/-- `SceneManager::CreateGLTexture`.  The decode result of
`stbi_load(filename, …)` is received as the `decoded` argument.  The two
supported channel branches (3 → `GL_RGB8`, 4 → `GL_RGBA8`) differ only in
the upload format, which the embedding does not track, so they are merged;
the `else` branch frees the pixel buffer, unbinds, and returns `false`
without deleting the generated texture object.  On success the entry is
appended only while `m_loadedTextures < MAX_TEXTURES`. -/
def createGLTexture (decoded : Option Image) (tag : String) (sm : SceneManager) :
    Bool × SceneManager :=
  match decoded with
  | none => (false, sm)
  | some image =>
    let sm := { sm with cpuBuffers := sm.cpuBuffers + 1 }
    let textureID := sm.gpu.next
    let sm := { sm with gpu := ⟨sm.gpu.live ++ [textureID], sm.gpu.next + 1⟩ }
    if image.channels = 3 ∨ image.channels = 4 then
      let sm := { sm with cpuBuffers := sm.cpuBuffers - 1 }
      if sm.textureIDs.length < MAX_TEXTURES then
        (true, { sm with textureIDs := sm.textureIDs ++ [⟨textureID, tag⟩] })
      else
        (true, sm)
    else
      (false, { sm with cpuBuffers := sm.cpuBuffers - 1 })

/-- `SceneManager::DestroyGLTextures`: `glDeleteTextures` every registered
entry's name, then reset `m_loadedTextures` to zero. -/
def destroyGLTextures (sm : SceneManager) : SceneManager :=
  let ids := sm.textureIDs.map (·.ID)
  { sm with
    gpu := ⟨sm.gpu.live.filter (fun x => !(ids.contains x)), sm.gpu.next⟩,
    textureIDs := [] }

/-- The scan loop of `SceneManager::FindTextureID`: walk the registered
entries, return the first matching entry's `ID`, else keep the `-1`
initialisation. -/
def findTextureIDScan (tag : String) : List TEXTURE_ENTRY → Int
  | [] => -1
  | e :: rest => if e.tag = tag then (e.ID : Int) else findTextureIDScan tag rest

/-- `SceneManager::FindTextureID`. -/
def findTextureID (tag : String) (sm : SceneManager) : Int :=
  findTextureIDScan tag sm.textureIDs

/-- The scan loop of `SceneManager::FindTextureSlot`, carrying the running
`index`: return the index of the first matching entry, else `-1`. -/
def findTextureSlotScan (tag : String) : Nat → List TEXTURE_ENTRY → Int
  | _, [] => -1
  | idx, e :: rest =>
    if e.tag = tag then (idx : Int) else findTextureSlotScan tag (idx + 1) rest

/-- `SceneManager::FindTextureSlot`. -/
def findTextureSlot (tag : String) (sm : SceneManager) : Int :=
  findTextureSlotScan tag 0 sm.textureIDs

/-- The scan loop of `SceneManager::FindMaterial`: walk the material list;
at the first entry whose tag matches, copy `diffuseColor`, `specularColor`
and `shininess` into the by-reference output (the output's `tag` field is
not copied); otherwise leave the output untouched. -/
def findMaterialScan (tag : String) (material : OBJECT_MATERIAL) :
    List OBJECT_MATERIAL → OBJECT_MATERIAL
  | [] => material
  | m :: rest =>
    if m.tag = tag then
      { material with
        diffuseColor := m.diffuseColor,
        specularColor := m.specularColor,
        shininess := m.shininess }
    else findMaterialScan tag material rest

/-- `SceneManager::FindMaterial`.  Returns the `bool` result together with
the final value of the by-reference `material` output parameter.  An empty
registry returns `false` at once; otherwise the scan runs and `true` is
returned whether or not any entry matched. -/
def findMaterial (tag : String) (material : OBJECT_MATERIAL) (sm : SceneManager) :
    Bool × OBJECT_MATERIAL :=
  if sm.objectMaterials.length = 0 then
    (false, material)
  else
    (true, findMaterialScan tag material sm.objectMaterials)

/-!
## Transform builder (`glm` matrices)

`glm::rotate(angle, axis)` builds its matrix from `cos(angle)` and
`sin(angle)`.  Real cosine and sine are not computable, so the embedding
receives each rotation as the pair `(cos, sin)` of the radian angle
produced by `glm::radians(degrees)`; an angle of `0` degrees corresponds
to the pair `(1, 0)`.  The code only rotates about the unit axes
`(1,0,0)`, `(0,1,0)`, `(0,0,1)`, for which `glm::rotate` specialises to
the three standard rotation matrices below (acting on column vectors).
-/

/-- `glm::scale(v)`. -/
def glmScale (v : Vec3) : Mat4 :=
  Matrix.of ![![v.x, 0, 0, 0], ![0, v.y, 0, 0], ![0, 0, v.z, 0], ![0, 0, 0, 1]]

/-- `glm::translate(v)`. -/
def glmTranslate (v : Vec3) : Mat4 :=
  Matrix.of ![![1, 0, 0, v.x], ![0, 1, 0, v.y], ![0, 0, 1, v.z], ![0, 0, 0, 1]]

/-- `glm::rotate(a, vec3(1,0,0))` with `c = cos a`, `s = sin a`. -/
def glmRotateX (c s : ℚ) : Mat4 :=
  Matrix.of ![![1, 0, 0, 0], ![0, c, -s, 0], ![0, s, c, 0], ![0, 0, 0, 1]]

/-- `glm::rotate(a, vec3(0,1,0))` with `c = cos a`, `s = sin a`. -/
def glmRotateY (c s : ℚ) : Mat4 :=
  Matrix.of ![![c, 0, s, 0], ![0, 1, 0, 0], ![-s, 0, c, 0], ![0, 0, 0, 1]]

/-- `glm::rotate(a, vec3(0,0,1))` with `c = cos a`, `s = sin a`. -/
def glmRotateZ (c s : ℚ) : Mat4 :=
  Matrix.of ![![c, -s, 0, 0], ![s, c, 0, 0], ![0, 0, 1, 0], ![0, 0, 0, 1]]

/-- The `modelView` product computed by `SetTransformations` (line
`translation * rotationZ * rotationY * rotationX * scale`).  Rotations are
given as `(cos, sin)` pairs. -/
def composedTransform (scaleXYZ : Vec3) (xcs ycs zcs : ℚ × ℚ)
    (positionXYZ : Vec3) : Mat4 :=
  glmTranslate positionXYZ * glmRotateZ zcs.1 zcs.2 * glmRotateY ycs.1 ycs.2 *
    glmRotateX xcs.1 xcs.2 * glmScale scaleXYZ

/-- `SceneManager::SetTransformations`: build the scale, per-axis rotation
and translation matrices, compose them, and push the result to the shader
as the `model` uniform — guarded by the `NULL != m_pShaderManager` check. -/
def setTransformations (scaleXYZ : Vec3) (xcs ycs zcs : ℚ × ℚ)
    (positionXYZ : Vec3) (sm : SceneManager) : SceneManager :=
  let modelView := composedTransform scaleXYZ xcs ycs zcs positionXYZ
  match sm.shader with
  | none => sm
  | some sh => { sm with shader := some (setMat4Value g_ModelName modelView sh) }

/-- `SceneManager::SetShaderColor`: when the shader pointer is non-null,
write `bUseTexture := 0` then the RGBA color uniform. -/
def setShaderColor (r g b a : ℚ) (sm : SceneManager) : SceneManager :=
  match sm.shader with
  | none => sm
  | some sh =>
    { sm with
      shader := some (setVec4Value g_ColorValueName r g b a
        (setIntValue g_UseTextureName 0 sh)) }

/-- `SceneManager::SetShaderTexture`: when the shader pointer is non-null,
write `bUseTexture := 1`, resolve the tag via `FindTextureSlot`, and write
the sampler uniform only when a slot was found (otherwise log an error and
write nothing further). -/
def setShaderTexture (textureTag : String) (sm : SceneManager) : SceneManager :=
  match sm.shader with
  | none => sm
  | some sh =>
    let sh := setIntValue g_UseTextureName 1 sh
    let slot := findTextureSlot textureTag sm
    if slot ≥ 0 then
      { sm with shader := some (setSampler2DValue g_TextureValueName slot sh) }
    else
      { sm with shader := some sh }

/-- `SceneManager::SetTextureUVScale`: when the shader pointer is non-null,
write the 2D `UVscale` uniform. -/
def setTextureUVScale (u v : ℚ) (sm : SceneManager) : SceneManager :=
  match sm.shader with
  | none => sm
  | some sh => { sm with shader := some (setVec2Value "UVscale" u v sh) }

/-!
## Point actions of the individual transforms

Used to state what the composed matrix does to a model-space point.
-/

/-- Homogeneous coordinates of a 3D point. -/
def homog (p : Vec3) : Fin 4 → ℚ := ![p.x, p.y, p.z, 1]

/-- Componentwise scaling of a point. -/
def scaleAction (v p : Vec3) : Vec3 := ⟨v.x * p.x, v.y * p.y, v.z * p.z⟩

/-- Rotation about the X axis with cosine `c`, sine `s`. -/
def rotateXAction (c s : ℚ) (p : Vec3) : Vec3 :=
  ⟨p.x, c * p.y - s * p.z, s * p.y + c * p.z⟩

/-- Rotation about the Y axis with cosine `c`, sine `s`. -/
def rotateYAction (c s : ℚ) (p : Vec3) : Vec3 :=
  ⟨c * p.x + s * p.z, p.y, -s * p.x + c * p.z⟩

/-- Rotation about the Z axis with cosine `c`, sine `s`. -/
def rotateZAction (c s : ℚ) (p : Vec3) : Vec3 :=
  ⟨c * p.x - s * p.y, s * p.x + c * p.y, p.z⟩

/-- Translation of a point. -/
def translateAction (t p : Vec3) : Vec3 := ⟨t.x + p.x, t.y + p.y, t.z + p.z⟩

/-!
## Helper lemmas
-/

/-- The material scan returns the copy-from-first-match of `List.find?`,
and the untouched output when no entry matches. -/
lemma findMaterialScan_eq (tag : String) (out : OBJECT_MATERIAL) :
    ∀ l : List OBJECT_MATERIAL,
      findMaterialScan tag out l =
        match l.find? (fun m => m.tag == tag) with
        | some e =>
          { out with
            diffuseColor := e.diffuseColor,
            specularColor := e.specularColor,
            shininess := e.shininess }
        | none => out
  | [] => rfl
  | m :: rest => by
    by_cases h : m.tag = tag
    · simp [findMaterialScan, h, List.find?]
    · have hb : (m.tag == tag) = false := by simpa using h
      simp [findMaterialScan, h, List.find?, hb, findMaterialScan_eq tag out rest]

/-- C1: `FindMaterial` reports not-found exactly when the material registry
is empty; on a non-empty registry whose entries all miss the tag it reports
success and copies nothing into the output. -/
theorem findMaterial_empty_and_absent (tag : String) (out : OBJECT_MATERIAL)
    (sm : SceneManager) :
    (((findMaterial tag out sm).1 = false) ↔ sm.objectMaterials = []) ∧
    (sm.objectMaterials ≠ [] → (∀ m ∈ sm.objectMaterials, m.tag ≠ tag) →
      findMaterial tag out sm = (true, out)) := by
  constructor
  · constructor
    · intro h
      by_contra hne
      have : sm.objectMaterials.length ≠ 0 := by
        simpa [List.length_eq_zero] using hne
      simp [findMaterial, this] at h
    · intro h
      simp [findMaterial, h]
  · intro hne habsent
    have hlen : ¬ sm.objectMaterials.length = 0 := by
      simpa [List.length_eq_zero] using hne
    have hfind : sm.objectMaterials.find? (fun m => m.tag == tag) = none := by
      rw [List.find?_eq_none]
      intro m hm
      simpa using habsent m hm
    simp [findMaterial, hlen, findMaterialScan_eq, hfind]

/-- A blank material value, used as the by-reference output argument in
concrete instantiations. -/
def outMat : OBJECT_MATERIAL := ⟨⟨0, 0, 0⟩, ⟨0, 0, 0⟩, 0, ""⟩

/-- A concrete scene-manager state with one registered material. -/
def smOneMat : SceneManager :=
  ⟨none, [], [⟨⟨1, 0, 0⟩, ⟨0, 1, 0⟩, 8, "floor"⟩], ⟨[], 0⟩, 0⟩

/-- C1 witness: a non-empty registry with the tag absent reports success
and copies nothing. -/
theorem findMaterial_empty_and_absent_witness :
    findMaterial "tent" outMat smOneMat = (true, outMat) :=
  (findMaterial_empty_and_absent "tent" outMat smOneMat).2 (by decide)
    (by decide)

/-- C8: on a non-empty material registry, a matching lookup copies exactly
the diffuse color, specular color and shininess of the first entry (in
insertion order) whose tag equals the looked-up tag; an absent tag leaves
the output exactly as it was. -/
theorem findMaterial_copies_first_match (tag : String) (out : OBJECT_MATERIAL)
    (sm : SceneManager) (hne : sm.objectMaterials ≠ []) :
    (∀ e, sm.objectMaterials.find? (fun m => m.tag == tag) = some e →
      findMaterial tag out sm =
        (true,
          { out with
            diffuseColor := e.diffuseColor,
            specularColor := e.specularColor,
            shininess := e.shininess })) ∧
    (sm.objectMaterials.find? (fun m => m.tag == tag) = none →
      findMaterial tag out sm = (true, out)) := by
  have hlen : ¬ sm.objectMaterials.length = 0 := by
    simpa [List.length_eq_zero] using hne
  constructor
  · intro e he
    simp [findMaterial, hlen, findMaterialScan_eq, he]
  · intro he
    simp [findMaterial, hlen, findMaterialScan_eq, he]

/-- A concrete scene-manager state holding two materials with the same tag
(first-match-wins is observable). -/
def smTwoMats : SceneManager :=
  ⟨none, [],
    [⟨⟨1, 0, 0⟩, ⟨0, 1, 0⟩, 8, "tent"⟩, ⟨⟨0, 0, 1⟩, ⟨1, 1, 0⟩, 16, "tent"⟩],
    ⟨[], 0⟩, 0⟩

/-- C8 witness: with two same-tagged materials registered, lookup copies
the first entry's values (and not its tag) into the output. -/
theorem findMaterial_copies_first_match_witness :
    findMaterial "tent" outMat smTwoMats =
      (true, ⟨⟨1, 0, 0⟩, ⟨0, 1, 0⟩, 8, ""⟩) := by
  have h :=
    (findMaterial_copies_first_match "tent" outMat smTwoMats (by decide)).1
      ⟨⟨1, 0, 0⟩, ⟨0, 1, 0⟩, 8, "tent"⟩ (by decide)
  simpa [outMat] using h

/-- If no registered entry carries the tag, the ID scan keeps its `-1`
initialisation. -/
lemma findTextureIDScan_absent (tag : String) :
    ∀ l : List TEXTURE_ENTRY, (∀ e ∈ l, e.tag ≠ tag) →
      findTextureIDScan tag l = -1
  | [], _ => rfl
  | e :: rest, h => by
    have he : e.tag ≠ tag := h e (by simp)
    simp only [findTextureIDScan, if_neg he]
    exact findTextureIDScan_absent tag rest (fun x hx => h x (by simp [hx]))

/-- If no registered entry carries the tag, the slot scan keeps its `-1`
initialisation, whatever the running index. -/
lemma findTextureSlotScan_absent (tag : String) :
    ∀ (l : List TEXTURE_ENTRY) (n : Nat), (∀ e ∈ l, e.tag ≠ tag) →
      findTextureSlotScan tag n l = -1
  | [], _, _ => rfl
  | e :: rest, n, h => by
    have he : e.tag ≠ tag := h e (by simp)
    simp only [findTextureSlotScan, if_neg he]
    exact findTextureSlotScan_absent tag rest (n + 1)
      (fun x hx => h x (by simp [hx]))

/-- When some registered entry carries the tag, both scans stop at the
first such entry: the ID scan returns its handle and the slot scan returns
its index (offset by the running index `n`). -/
lemma textureScan_present (tag : String) :
    ∀ l : List TEXTURE_ENTRY, (∃ e ∈ l, e.tag = tag) →
      ∃ i, ∃ h : i < l.length,
        (l.get ⟨i, h⟩).tag = tag ∧
        (∀ j (hj : j < i), (l.get ⟨j, Nat.lt_trans hj h⟩).tag ≠ tag) ∧
        findTextureIDScan tag l = ((l.get ⟨i, h⟩).ID : Int) ∧
        ∀ n, findTextureSlotScan tag n l = ((n + i : Nat) : Int)
  | [], hex => by simp at hex
  | e :: rest, hex => by
    by_cases he : e.tag = tag
    · refine ⟨0, by simp, by simpa using he, ?_, ?_, ?_⟩
      · intro j hj
        omega
      · simp [findTextureIDScan, he]
      · intro n
        simp [findTextureSlotScan, he]
    · have hrest : ∃ x ∈ rest, x.tag = tag := by
        obtain ⟨x, hx, hxt⟩ := hex
        rcases List.mem_cons.mp hx with rfl | hx2
        · exact absurd hxt he
        · exact ⟨x, hx2, hxt⟩
      obtain ⟨i, h, h1, h2, h3, h4⟩ := textureScan_present tag rest hrest
      refine ⟨i + 1, Nat.succ_lt_succ h, by simpa using h1, ?_, ?_, ?_⟩
      · intro j hj
        cases j with
        | zero => simpa using he
        | succ j2 =>
          have := h2 j2 (by omega)
          simpa using this
      · simpa [findTextureIDScan, he] using h3
      · intro n
        have := h4 (n + 1)
        simp only [findTextureSlotScan, if_neg he]
        rw [this]
        congr 1
        omega

/-- If some registered entry carries the tag, the ID scan result is a
(nonnegative) stored handle, never the `-1` sentinel. -/
lemma findTextureIDScan_nonneg (tag : String) (l : List TEXTURE_ENTRY)
    (hex : ∃ e ∈ l, e.tag = tag) : 0 ≤ findTextureIDScan tag l := by
  obtain ⟨i, h, _, _, h3, _⟩ := textureScan_present tag l hex
  rw [h3]
  exact Int.ofNat_nonneg _

/-- C5: for a tag carried by some registered entry, `FindTextureID` returns
the handle of the first entry with that tag and `FindTextureSlot` returns
its registration index, which lies in `[0, registered-count)`; for a tag
carried by no entry, both return the `-1` sentinel. -/
theorem texture_lookup_spec (sm : SceneManager) (tag : String) :
    ((∃ e ∈ sm.textureIDs, e.tag = tag) →
      ∃ i, ∃ h : i < sm.textureIDs.length,
        (sm.textureIDs.get ⟨i, h⟩).tag = tag ∧
        (∀ j (hj : j < i),
          (sm.textureIDs.get ⟨j, Nat.lt_trans hj h⟩).tag ≠ tag) ∧
        findTextureID tag sm = ((sm.textureIDs.get ⟨i, h⟩).ID : Int) ∧
        findTextureSlot tag sm = (i : Int)) ∧
    ((∀ e ∈ sm.textureIDs, e.tag ≠ tag) →
      findTextureID tag sm = -1 ∧ findTextureSlot tag sm = -1) := by
  constructor
  · intro hex
    obtain ⟨i, h, h1, h2, h3, h4⟩ := textureScan_present tag sm.textureIDs hex
    refine ⟨i, h, h1, h2, h3, ?_⟩
    have := h4 0
    simpa [findTextureSlot] using this
  · intro habs
    exact ⟨findTextureIDScan_absent tag sm.textureIDs habs,
      findTextureSlotScan_absent tag sm.textureIDs 0 habs⟩

/-- A concrete scene-manager state with two registered textures. -/
def smTwoTex : SceneManager :=
  ⟨none, [⟨5, "tent"⟩, ⟨7, "sky"⟩], [], ⟨[5, 7], 8⟩, 0⟩

/-- C5 witness: an unregistered tag yields the sentinel from both lookups. -/
theorem texture_lookup_spec_witness :
    findTextureID "rock" smTwoTex = -1 ∧ findTextureSlot "rock" smTwoTex = -1 :=
  (texture_lookup_spec smTwoTex "rock").2 (by decide)

/-- C6: `DestroyGLTextures` on an empty registry is a no-op; on any
registry it empties the registration list, after which every lookup
returns the `-1` sentinel. -/
theorem destroy_empty_and_reset (sm : SceneManager) :
    (sm.textureIDs = [] → destroyGLTextures sm = sm) ∧
    (destroyGLTextures sm).textureIDs = [] ∧
    (∀ tag, findTextureID tag (destroyGLTextures sm) = -1 ∧
      findTextureSlot tag (destroyGLTextures sm) = -1) := by
  refine ⟨?_, rfl, ?_⟩
  · intro h
    cases sm with
    | mk shader tex mats gpu cpu =>
      cases gpu with
      | mk live next =>
        simp only at h
        subst h
        simp [destroyGLTextures]
  · intro tag
    exact ⟨rfl, rfl⟩

/-- A concrete scene-manager state with no registered textures but one
untracked live GPU object. -/
def smNoTexLeak : SceneManager := ⟨none, [], [], ⟨[9], 3⟩, 0⟩

/-- C6 witness: teardown without any registration leaves the state
untouched. -/
theorem destroy_empty_and_reset_witness :
    destroyGLTextures smNoTexLeak = smNoTexLeak :=
  (destroy_empty_and_reset smNoTexLeak).1 rfl

/-- C9: registration never pushes the registered count past
`MAX_TEXTURES` — it grows by at most one and grows only from below the
capacity — and teardown resets the count to zero. -/
theorem registry_count_invariant (sm : SceneManager) (decoded : Option Image)
    (tag : String) (hle : sm.textureIDs.length ≤ MAX_TEXTURES) :
    ((createGLTexture decoded tag sm).2.textureIDs.length ≤ MAX_TEXTURES ∧
      (createGLTexture decoded tag sm).2.textureIDs.length ≤
        sm.textureIDs.length + 1 ∧
      ((createGLTexture decoded tag sm).2.textureIDs.length =
          sm.textureIDs.length + 1 →
        sm.textureIDs.length < MAX_TEXTURES)) ∧
    (destroyGLTextures sm).textureIDs.length = 0 := by
  refine ⟨?_, by simp [destroyGLTextures]⟩
  cases decoded with
  | none =>
    simp [createGLTexture]
    omega
  | some img =>
    by_cases hch : img.channels = 3 ∨ img.channels = 4
    · by_cases hlt : sm.textureIDs.length < MAX_TEXTURES
      · simp [createGLTexture, hch, hlt]
        omega
      · simp [createGLTexture, hch, hlt]
        omega
    · simp [createGLTexture, hch]
      omega

/-- A concrete scene-manager state with empty registries. -/
def smNoTex : SceneManager := ⟨none, [], [], ⟨[], 0⟩, 0⟩

/-- C9 witness: registering a 3-channel image into the empty registry. -/
theorem registry_count_invariant_witness :
    ((createGLTexture (some ⟨2, 2, 3⟩) "tent" smNoTex).2.textureIDs.length ≤
        MAX_TEXTURES ∧
      (createGLTexture (some ⟨2, 2, 3⟩) "tent" smNoTex).2.textureIDs.length ≤
        smNoTex.textureIDs.length + 1 ∧
      ((createGLTexture (some ⟨2, 2, 3⟩) "tent" smNoTex).2.textureIDs.length =
          smNoTex.textureIDs.length + 1 →
        smNoTex.textureIDs.length < MAX_TEXTURES)) ∧
    (destroyGLTextures smNoTex).textureIDs.length = 0 :=
  registry_count_invariant smNoTex (some ⟨2, 2, 3⟩) "tent" (by decide)

/-- C10: with a null shader-manager pointer, the four uniform-pushing
operations are identity no-ops on the whole state. -/
theorem null_shader_guards (sm : SceneManager) (hnull : sm.shader = none)
    (scaleXYZ : Vec3) (xcs ycs zcs : ℚ × ℚ) (positionXYZ : Vec3)
    (r g b a u v : ℚ) (tag : String) :
    setTransformations scaleXYZ xcs ycs zcs positionXYZ sm = sm ∧
    setShaderColor r g b a sm = sm ∧
    setShaderTexture tag sm = sm ∧
    setTextureUVScale u v sm = sm := by
  refine ⟨?_, ?_, ?_, ?_⟩ <;>
    simp [setTransformations, setShaderColor, setShaderTexture,
      setTextureUVScale, hnull]

/-- C10 witness. -/
theorem null_shader_guards_witness :
    setTransformations ⟨1, 2, 3⟩ (1, 0) (0, 1) (1, 0) ⟨4, 5, 6⟩ smTwoTex =
      smTwoTex ∧
    setShaderColor 1 0 0 1 smTwoTex = smTwoTex ∧
    setShaderTexture "tent" smTwoTex = smTwoTex ∧
    setTextureUVScale 10 10 smTwoTex = smTwoTex :=
  null_shader_guards smTwoTex rfl ⟨1, 2, 3⟩ (1, 0) (0, 1) (1, 0) ⟨4, 5, 6⟩
    1 0 0 1 10 10 "tent"

/-- C2 counterexample: registering a decodable 2-channel image from the
fresh state returns failure, yet the GPU texture object generated by the
call (name `0`) is still allocated after the return — the claim that no
GPU resource from the failed call remains allocated is false. -/
theorem unsupported_channels_leak_counterexample :
    (createGLTexture (some ⟨1, 1, 2⟩) "B" smNoTex).1 = false ∧
    (createGLTexture (some ⟨1, 1, 2⟩) "B" smNoTex).2.gpu.live = [0] := by
  decide

/-- C2 (amended): a decoded image with a channel count other than 3 or 4
makes `CreateGLTexture` return failure; the CPU pixel buffer is freed and
the texture unbound, and no registry entry is added — but the generated
GPU texture object is not deleted: it stays in the live set, untracked. -/
theorem unsupported_channels_behavior (sm : SceneManager) (img : Image)
    (tag : String) (h3 : img.channels ≠ 3) (h4 : img.channels ≠ 4) :
    createGLTexture (some img) tag sm =
      (false,
        { sm with gpu := ⟨sm.gpu.live ++ [sm.gpu.next], sm.gpu.next + 1⟩ }) := by
  have hch : ¬(img.channels = 3 ∨ img.channels = 4) := by
    simp [h3, h4]
  simp [createGLTexture, hch]

/-- C2 witness for the amended theorem. -/
theorem unsupported_channels_behavior_witness :
    createGLTexture (some ⟨1, 1, 2⟩) "B" smNoTex =
      (false, ⟨none, [], [], ⟨[0], 1⟩, 0⟩) := by
  have h := unsupported_channels_behavior smNoTex ⟨1, 1, 2⟩ "B"
    (by decide) (by decide)
  simpa [smNoTex] using h

/-- C3: registering a decodable supported image into a registry already at
`MAX_TEXTURES` still returns success and creates a GPU texture object, but
appends no entry: the registration list (hence the count) is unchanged,
every lookup result is unchanged — in particular every stored tag still
resolves (no sentinel) — and a fresh tag is not retrievable. -/
theorem capacity_overflow_untracked (sm : SceneManager) (img : Image)
    (tag : String) (hfull : sm.textureIDs.length = MAX_TEXTURES)
    (hch : img.channels = 3 ∨ img.channels = 4) :
    (createGLTexture (some img) tag sm).1 = true ∧
    (createGLTexture (some img) tag sm).2.textureIDs = sm.textureIDs ∧
    (createGLTexture (some img) tag sm).2.textureIDs.length = MAX_TEXTURES ∧
    (createGLTexture (some img) tag sm).2.gpu.live =
      sm.gpu.live ++ [sm.gpu.next] ∧
    (∀ t, findTextureID t (createGLTexture (some img) tag sm).2 =
        findTextureID t sm ∧
      findTextureSlot t (createGLTexture (some img) tag sm).2 =
        findTextureSlot t sm) ∧
    (∀ e ∈ sm.textureIDs,
      0 ≤ findTextureID e.tag (createGLTexture (some img) tag sm).2) ∧
    ((∀ e ∈ sm.textureIDs, e.tag ≠ tag) →
      findTextureID tag (createGLTexture (some img) tag sm).2 = -1) := by
  have hnlt : ¬ sm.textureIDs.length < MAX_TEXTURES := by omega
  have hres : createGLTexture (some img) tag sm =
      (true,
        { sm with gpu := ⟨sm.gpu.live ++ [sm.gpu.next], sm.gpu.next + 1⟩ }) := by
    simp [createGLTexture, hch, hnlt]
  rw [hres]
  refine ⟨rfl, rfl, hfull, rfl, fun t => ⟨rfl, rfl⟩, ?_, ?_⟩
  · intro e he
    exact findTextureIDScan_nonneg e.tag sm.textureIDs ⟨e, he, rfl⟩
  · intro habs
    exact findTextureIDScan_absent tag sm.textureIDs habs

/-- A concrete scene-manager state whose texture registry is exactly at
capacity (all entries share tag "a", handle 0). -/
def smFullTex : SceneManager :=
  ⟨none, List.replicate MAX_TEXTURES ⟨0, "a"⟩, [], ⟨[], 20⟩, 0⟩

/-- C3 witness: the at-capacity registration reports success, stores
nothing, and the fresh tag stays unresolvable. -/
theorem capacity_overflow_untracked_witness :
    (createGLTexture (some ⟨1, 1, 4⟩) "b" smFullTex).1 = true ∧
    (createGLTexture (some ⟨1, 1, 4⟩) "b" smFullTex).2.textureIDs =
      smFullTex.textureIDs ∧
    findTextureID "b" (createGLTexture (some ⟨1, 1, 4⟩) "b" smFullTex).2 = -1 := by
  have h := capacity_overflow_untracked smFullTex ⟨1, 1, 4⟩ "b"
    (by decide) (by decide)
  exact ⟨h.1, h.2.1, h.2.2.2.2.2.2 (by decide)⟩

/-- Appending one write for uniform `n` changes the current value of `n`
to the written value and leaves every other uniform's current value
untouched. -/
lemma getUniform_push (name n : String) (v : UniformVal) (sh : ShaderManager) :
    getUniform name (sh.push n v) =
      if n == name then some v else getUniform name sh := by
  simp only [getUniform, ShaderManager.push, List.reverse_append,
    List.reverse_cons, List.reverse_nil, List.nil_append, List.cons_append,
    List.find?]
  by_cases h : n == name
  · simp [h]
  · simp only [h]
    rfl

/-- C7: with a non-null shader pointer, `SetShaderTexture` always writes
`bUseTexture := 1`; when the tag resolves to a slot it additionally writes
that slot to the sampler uniform, and when resolution fails it appends no
further write, so the sampler uniform's current value is exactly what it
was before the call. -/
theorem shader_texture_behavior (sm : SceneManager) (sh : ShaderManager)
    (tag : String) (hsh : sm.shader = some sh) :
    (0 ≤ findTextureSlot tag sm →
      (setShaderTexture tag sm).shader =
        some ⟨sh.writes ++
          [(g_UseTextureName, UniformVal.intVal 1),
            (g_TextureValueName,
              UniformVal.sampler2DVal (findTextureSlot tag sm))]⟩) ∧
    (findTextureSlot tag sm < 0 →
      (setShaderTexture tag sm).shader =
        some ⟨sh.writes ++ [(g_UseTextureName, UniformVal.intVal 1)]⟩) ∧
    (∃ sh2, (setShaderTexture tag sm).shader = some sh2 ∧
      getUniform g_UseTextureName sh2 = some (UniformVal.intVal 1) ∧
      getUniform g_TextureValueName sh2 =
        (if 0 ≤ findTextureSlot tag sm then
          some (UniformVal.sampler2DVal (findTextureSlot tag sm))
        else getUniform g_TextureValueName sh)) := by
  have hbeq1 : (g_TextureValueName == g_UseTextureName) = false := by decide
  have hbeq2 : (g_UseTextureName == g_TextureValueName) = false := by decide
  by_cases hslot : 0 ≤ findTextureSlot tag sm
  · have hres : (setShaderTexture tag sm).shader =
        some ⟨sh.writes ++
          [(g_UseTextureName, UniformVal.intVal 1),
            (g_TextureValueName,
              UniformVal.sampler2DVal (findTextureSlot tag sm))]⟩ := by
      simp [setShaderTexture, hsh, hslot, setIntValue, setSampler2DValue,
        ShaderManager.push]
    refine ⟨fun _ => hres, fun hneg => absurd hslot (by omega), ?_⟩
    refine ⟨_, hres, ?_, ?_⟩
    · have e1 : (⟨sh.writes ++
          [(g_UseTextureName, UniformVal.intVal 1),
            (g_TextureValueName,
              UniformVal.sampler2DVal (findTextureSlot tag sm))]⟩ :
            ShaderManager) =
          ((sh.push g_UseTextureName (UniformVal.intVal 1)).push
            g_TextureValueName
            (UniformVal.sampler2DVal (findTextureSlot tag sm))) := by
        simp [ShaderManager.push]
      rw [e1, getUniform_push, hbeq1, getUniform_push]
      simp
    · have e1 : (⟨sh.writes ++
          [(g_UseTextureName, UniformVal.intVal 1),
            (g_TextureValueName,
              UniformVal.sampler2DVal (findTextureSlot tag sm))]⟩ :
            ShaderManager) =
          ((sh.push g_UseTextureName (UniformVal.intVal 1)).push
            g_TextureValueName
            (UniformVal.sampler2DVal (findTextureSlot tag sm))) := by
        simp [ShaderManager.push]
      rw [e1, getUniform_push]
      simp [hslot]
  · have hres : (setShaderTexture tag sm).shader =
        some ⟨sh.writes ++ [(g_UseTextureName, UniformVal.intVal 1)]⟩ := by
      simp [setShaderTexture, hsh, hslot, setIntValue, ShaderManager.push]
    refine ⟨fun hpos => absurd hpos hslot, fun _ => hres, ?_⟩
    refine ⟨_, hres, ?_, ?_⟩
    · have e1 : (⟨sh.writes ++ [(g_UseTextureName, UniformVal.intVal 1)]⟩ :
            ShaderManager) =
          sh.push g_UseTextureName (UniformVal.intVal 1) := rfl
      rw [e1, getUniform_push]
      simp
    · have e1 : (⟨sh.writes ++ [(g_UseTextureName, UniformVal.intVal 1)]⟩ :
            ShaderManager) =
          sh.push g_UseTextureName (UniformVal.intVal 1) := rfl
      rw [e1, getUniform_push, hbeq2]
      simp [hslot]

/-- A concrete scene-manager state with a live shader whose sampler uniform
was previously set to 7, and no registered textures. -/
def smShaderTex : SceneManager :=
  ⟨some ⟨[(g_TextureValueName, UniformVal.sampler2DVal 7)]⟩, [], [],
    ⟨[], 0⟩, 0⟩

/-- C7 witness: looking up an unregistered tag enables texturing and leaves
the previously written sampler value in place. -/
theorem shader_texture_behavior_witness :
    (setShaderTexture "rock" smShaderTex).shader =
      some ⟨[(g_TextureValueName, UniformVal.sampler2DVal 7),
        (g_UseTextureName, UniformVal.intVal 1)]⟩ := by
  have h := (shader_texture_behavior smShaderTex
    ⟨[(g_TextureValueName, UniformVal.sampler2DVal 7)]⟩ "rock" rfl).2.1
    (by decide)
  simpa using h

/-- `glm::scale` acts on homogeneous points as componentwise scaling. -/
lemma glmScale_mulVec (v p : Vec3) :
    (glmScale v).mulVec (homog p) = homog (scaleAction v p) := by
  funext i
  fin_cases i <;>
    simp [glmScale, homog, scaleAction, Matrix.mulVec, Matrix.dotProduct,
      Fin.sum_univ_four]

/-- The X-rotation matrix acts on homogeneous points as rotation about X. -/
lemma glmRotateX_mulVec (c s : ℚ) (p : Vec3) :
    (glmRotateX c s).mulVec (homog p) = homog (rotateXAction c s p) := by
  funext i
  fin_cases i <;>
    simp [glmRotateX, homog, rotateXAction, Matrix.mulVec, Matrix.dotProduct,
      Fin.sum_univ_four] <;> ring

/-- The Y-rotation matrix acts on homogeneous points as rotation about Y. -/
lemma glmRotateY_mulVec (c s : ℚ) (p : Vec3) :
    (glmRotateY c s).mulVec (homog p) = homog (rotateYAction c s p) := by
  funext i
  fin_cases i <;>
    simp [glmRotateY, homog, rotateYAction, Matrix.mulVec, Matrix.dotProduct,
      Fin.sum_univ_four] <;> ring

/-- The Z-rotation matrix acts on homogeneous points as rotation about Z. -/
lemma glmRotateZ_mulVec (c s : ℚ) (p : Vec3) :
    (glmRotateZ c s).mulVec (homog p) = homog (rotateZAction c s p) := by
  funext i
  fin_cases i <;>
    simp [glmRotateZ, homog, rotateZAction, Matrix.mulVec, Matrix.dotProduct,
      Fin.sum_univ_four] <;> ring

/-- `glm::translate` acts on homogeneous points as translation. -/
lemma glmTranslate_mulVec (t p : Vec3) :
    (glmTranslate t).mulVec (homog p) = homog (translateAction t p) := by
  funext i
  fin_cases i <;>
    simp [glmTranslate, homog, translateAction, Matrix.mulVec,
      Matrix.dotProduct, Fin.sum_univ_four] <;> ring

lemma glmScale_one : glmScale ⟨1, 1, 1⟩ = 1 := by decide

lemma glmRotateX_one : glmRotateX 1 0 = 1 := by decide

lemma glmRotateY_one : glmRotateY 1 0 = 1 := by decide

lemma glmRotateZ_one : glmRotateZ 1 0 = 1 := by decide

lemma glmTranslate_zero : glmTranslate ⟨0, 0, 0⟩ = 1 := by decide

/-- C4: with a non-null shader pointer, `SetTransformations` pushes exactly
the matrix `translate · rotateZ · rotateY · rotateX · scale` as the
`model` uniform; that matrix sends each model-space point through scaling
first, then the X, Y and Z rotations in that order, then translation; and
at scale `(1,1,1)`, zero rotations (cosine 1, sine 0) and translation
`(0,0,0)` it is the identity matrix. -/
theorem transform_composition (scaleXYZ : Vec3) (xcs ycs zcs : ℚ × ℚ)
    (positionXYZ : Vec3) (sm : SceneManager) (sh : ShaderManager)
    (hsh : sm.shader = some sh) :
    ((setTransformations scaleXYZ xcs ycs zcs positionXYZ sm).shader =
      some (setMat4Value g_ModelName
        (glmTranslate positionXYZ * glmRotateZ zcs.1 zcs.2 *
          glmRotateY ycs.1 ycs.2 * glmRotateX xcs.1 xcs.2 *
          glmScale scaleXYZ) sh)) ∧
    (∀ p : Vec3,
      (composedTransform scaleXYZ xcs ycs zcs positionXYZ).mulVec (homog p) =
        homog (translateAction positionXYZ
          (rotateZAction zcs.1 zcs.2
            (rotateYAction ycs.1 ycs.2
              (rotateXAction xcs.1 xcs.2 (scaleAction scaleXYZ p)))))) ∧
    composedTransform ⟨1, 1, 1⟩ (1, 0) (1, 0) (1, 0) ⟨0, 0, 0⟩ = 1 := by
  refine ⟨?_, ?_, ?_⟩
  · simp [setTransformations, hsh, composedTransform]
  · intro p
    rw [composedTransform, ← Matrix.mulVec_mulVec, ← Matrix.mulVec_mulVec,
      ← Matrix.mulVec_mulVec, ← Matrix.mulVec_mulVec, glmScale_mulVec,
      glmRotateX_mulVec, glmRotateY_mulVec, glmRotateZ_mulVec,
      glmTranslate_mulVec]
  · rw [composedTransform, glmScale_one, glmRotateX_one, glmRotateY_one,
      glmRotateZ_one, glmTranslate_zero]
    simp

/-- A concrete scene-manager state with a live shader that has seen no
writes yet. -/
def smFreshShader : SceneManager := ⟨some ⟨[]⟩, [], [], ⟨[], 0⟩, 0⟩

/-- C4 witness: the trivial transform is pushed as the `model` uniform and
equals the identity matrix. -/
theorem transform_composition_witness :
    ((setTransformations ⟨1, 1, 1⟩ (1, 0) (1, 0) (1, 0) ⟨0, 0, 0⟩
        smFreshShader).shader =
      some (setMat4Value g_ModelName
        (glmTranslate ⟨0, 0, 0⟩ * glmRotateZ 1 0 * glmRotateY 1 0 *
          glmRotateX 1 0 * glmScale ⟨1, 1, 1⟩) ⟨[]⟩)) ∧
    composedTransform ⟨1, 1, 1⟩ (1, 0) (1, 0) (1, 0) ⟨0, 0, 0⟩ = 1 := by
  have h := transform_composition ⟨1, 1, 1⟩ (1, 0) (1, 0) (1, 0) ⟨0, 0, 0⟩
    smFreshShader ⟨[]⟩ rfl
  exact ⟨h.1, h.2.2⟩
